import Mathlib

/-!
Shallow embedding of the blogging application in `src/main.py` (Flask blog).

The relational store is modelled as lists of rows with auto-increment
counters, the session as the optional id of the logged-in user, and each
route handler as a pure function from the store, the session and the
(already validated) form data to a result record carrying the new store,
the new session, the HTTP response and the flashed notices.

The password hashing primitives (werkzeug) are external collaborators;
following the specification they are treated as an opaque one-way hash
with a verify function, modelled here as a deterministic injective
tagging so that `check_password_hash` is executable.
-/

/-- Row of the `user` table (main.py lines 35-43). -/
structure User where
  id : Nat
  email : String
  password : String
  name : String
  deriving Repr, DecidableEq

/-- Row of the `blog_posts` table (main.py lines 46-56).
`author_id` is the nullable foreign key into `user`. -/
structure BlogPost where
  id : Nat
  title : String
  subtitle : String
  date : String
  body : String
  img_url : String
  author_id : Option Nat
  deriving Repr, DecidableEq

/-- Row of the `comments` table (main.py lines 59-69).
Both foreign keys are nullable columns. -/
structure Comment where
  id : Nat
  author_id : Option Nat
  post_id : Option Nat
  text : String
  deriving Repr, DecidableEq

/-- The relational store: three tables plus auto-increment counters. -/
structure DB where
  users : List User
  posts : List BlogPost
  comments : List Comment
  next_user_id : Nat
  next_post_id : Nat
  next_comment_id : Nat
  deriving Repr, DecidableEq

/-- Modelled from the spec: the fields of `RegisterForm` (the `forms`
module is not under src/; the spec lists email, password, display name). -/
structure RegisterForm where
  name : String
  email : String
  password : String
  deriving Repr, DecidableEq

/-- Modelled from the spec: the fields of `LoginForm`. -/
structure LoginForm where
  email : String
  password : String
  deriving Repr, DecidableEq

/-- Modelled from the spec: the fields of `CreatePostForm`
(title, subtitle, image URL, author reference, body; the `forms` module
is not under src/). The author field carries an author reference, which
`edit_post` assigns to the post's author relationship. -/
structure CreatePostForm where
  title : String
  subtitle : String
  body : String
  img_url : String
  author : Option Nat
  deriving Repr, DecidableEq

/-- Redirect targets produced by `url_for` in main.py. -/
inductive Route where
  | get_all_posts
  | login
  | show_post (index : Nat)
  deriving Repr, DecidableEq

/-- The response a handler hands to the (excluded) rendering layer:
a rendered template with its template arguments, a redirect, or an
HTTP error (403 from `abort`, 500 from an uncaught Python exception). -/
inductive Response where
  | renderIndex (all_posts : List BlogPost) (logged_in : Bool)
  | renderRegister (logged_in : Bool)
  | renderLogin (logged_in : Bool)
  | renderPost (post : Option BlogPost) (logged_in : Bool)
  | renderMakePost (is_edit : Bool) (logged_in : Bool)
  | redirect (target : Route)
  | httpError (code : Nat) (msg : String)
  deriving Repr, DecidableEq

/-- Result of one request: the updated store, the updated session
(the id stored by flask_login's `login_user`), the response, and the
flashed notices. -/
structure HResult where
  db : DB
  session : Option Nat
  response : Response
  flashes : List String
  deriving Repr, DecidableEq

/-- Model of werkzeug's `generate_password_hash(password,
method="pbkdf2:sha256", salt_length=8)`: an opaque one-way hash,
modelled as deterministic injective tagging. -/
def generate_password_hash (password : String) : String :=
  "pbkdf2:sha256:" ++ password

/-- Model of werkzeug's `check_password_hash`. -/
def check_password_hash (stored password : String) : Bool :=
  stored == generate_password_hash password

/-- flask_login's `current_user`, resolved through the `load_user`
user loader (main.py lines 88-90): `User.query.get(int(user_id))`.
`none` is the anonymous principal. -/
def current_user (db : DB) (session : Option Nat) : Option User :=
  match session with
  | none => none
  | some uid => db.users.find? (fun u => u.id == uid)

/-- `BlogPost.query.get(id)`: primary-key lookup. -/
def getPost (db : DB) (id : Nat) : Option BlogPost :=
  db.posts.find? (fun p => p.id == id)

/-- The `admin_only` decorator (main.py lines 77-84): it reads
`current_user.id` BEFORE comparing with 1, so an anonymous principal
(flask_login's AnonymousUserMixin, which has no `id` attribute) raises
AttributeError — an uncaught exception surfaced as HTTP 500 — while an
authenticated principal with id different from 1 gets `abort(403, ...)`. -/
def admin_only {α : Type} (func : DB → Option Nat → α → HResult)
    (db : DB) (session : Option Nat) (a : α) : HResult :=
  match current_user db session with
  | none =>
      { db := db, session := session,
        response := .httpError 500 "AttributeError: AnonymousUserMixin has no attribute id",
        flashes := [] }
  | some u =>
      if u.id ≠ 1 then
        { db := db, session := session,
          response := .httpError 403 "This page is not found at all",
          flashes := [] }
      else func db session a

/-- `GET /` (main.py lines 94-97): render the index with all posts. -/
def get_all_posts (db : DB) (session : Option Nat) : HResult :=
  { db := db, session := session,
    response := .renderIndex db.posts (current_user db session).isSome,
    flashes := [] }

/-- `/register` (main.py lines 101-126). `form = none` models a GET or a
submission the form layer rejected; `form = some f` models
`validate_on_submit()` returning True with data `f`. -/
def register (db : DB) (session : Option Nat) (form : Option RegisterForm) : HResult :=
  match form with
  | none =>
      { db := db, session := session,
        response := .renderRegister (current_user db session).isSome, flashes := [] }
  | some f =>
      if (db.users.find? (fun u => u.email == f.email)).isSome then
        { db := db, session := session,
          response := .redirect .login,
          flashes := ["This email has been registered. Login with the email"] }
      else
        let register_user : User :=
          { id := db.next_user_id, email := f.email,
            password := generate_password_hash f.password, name := f.name }
        { db := { db with
                    users := db.users ++ [register_user],
                    next_user_id := db.next_user_id + 1 },
          session := session,
          response := .redirect .get_all_posts, flashes := [] }

/-- `/login` (main.py lines 130-151). -/
def login (db : DB) (session : Option Nat) (form : Option LoginForm) : HResult :=
  match form with
  | none =>
      { db := db, session := session,
        response := .renderLogin (current_user db session).isSome, flashes := [] }
  | some f =>
      match db.users.find? (fun u => u.email == f.email) with
      | none =>
          { db := db, session := session,
            response := .redirect .login,
            flashes := ["This email does not exist. Please try again"] }
      | some user =>
          if check_password_hash user.password f.password then
            { db := db, session := some user.id,
              response := .redirect .get_all_posts, flashes := [] }
          else
            { db := db, session := session,
              response := .renderLogin (current_user db session).isSome,
              flashes := ["Password incorrect. Please try again"] }

/-- `/post/<int:index>` (main.py lines 163-190). `form = some text` models
`comment_form.validate_on_submit()` returning True with comment text.
Note two quirks reproduced faithfully from the source: the
redirect-to-login computed for an anonymous GET (line 187) has no
`return` and is discarded, and the final render passes
`logged_in=True` unconditionally (line 189). -/
def show_post (db : DB) (session : Option Nat) (index : Nat)
    (form : Option String) : HResult :=
  let requested_post := db.posts.find? (fun p => p.id == index)
  match form with
  | some text =>
      match current_user db session with
      | none =>
          { db := db, session := session,
            response := .redirect .login,
            flashes := ["You need to login or register to comment."] }
      | some u =>
          let user_comment : Comment :=
            { id := db.next_comment_id, author_id := some u.id,
              post_id := requested_post.map (fun p => p.id), text := text }
          { db := { db with
                      comments := db.comments ++ [user_comment],
                      next_comment_id := db.next_comment_id + 1 },
            session := session,
            response := .redirect (.show_post index), flashes := [] }
  | none =>
      let _discarded_redirect :=
        if (current_user db session).isNone then
          some (Response.redirect .login)
        else none
      { db := db, session := session,
        response := .renderPost requested_post true, flashes := [] }

/-- Body of `/new-post` (main.py lines 206-223), before the `admin_only`
wrapping. The pair carries the validated form (if any) and the value of
`datetime.now().strftime("%B %d, %Y")` at the time of the request.
Under the `admin_only` gate `current_user` is always an authenticated
user here. -/
def make_post_inner (db : DB) (session : Option Nat)
    (a : Option CreatePostForm × String) : HResult :=
  match a.1 with
  | some forms =>
      let new_posts : BlogPost :=
        { id := db.next_post_id, title := forms.title, subtitle := forms.subtitle,
          date := a.2, body := forms.body, img_url := forms.img_url,
          author_id := (current_user db session).map (fun u => u.id) }
      { db := { db with
                  posts := db.posts ++ [new_posts],
                  next_post_id := db.next_post_id + 1 },
        session := session,
        response := .redirect .get_all_posts, flashes := [] }
  | none =>
      { db := db, session := session,
        response := .renderMakePost false true, flashes := [] }

/-- `/new-post` with its `admin_only` gate. -/
def make_post (db : DB) (session : Option Nat) (form : Option CreatePostForm)
    (today : String) : HResult :=
  admin_only make_post_inner db session (form, today)

/-- Body of `/edit-post/<int:post_id>` (main.py lines 229-247), before the
`admin_only` wrapping. The source prefetches the post and dereferences it
to prefill the form, so an absent id raises AttributeError (HTTP 500).
On submit it mutates title, subtitle, img_url, author and body of the
fetched post and commits; the date column is never assigned. -/
def edit_post_inner (db : DB) (session : Option Nat)
    (a : Nat × Option CreatePostForm) : HResult :=
  match db.posts.find? (fun p => p.id == a.1) with
  | none =>
      { db := db, session := session,
        response := .httpError 500 "AttributeError: NoneType has no attribute title",
        flashes := [] }
  | some post =>
      match a.2 with
      | some edit_form =>
          let updated : BlogPost :=
            { post with
                title := edit_form.title
                subtitle := edit_form.subtitle
                img_url := edit_form.img_url
                author_id := edit_form.author
                body := edit_form.body }
          { db := { db with
                    posts := db.posts.map (fun p => if p.id == a.1 then updated else p) },
            session := session,
            response := .redirect (.show_post a.1), flashes := [] }
      | none =>
          { db := db, session := session,
            response := .renderMakePost true true, flashes := [] }

/-- `/edit-post/<int:post_id>` with its `admin_only` gate. -/
def edit_post (db : DB) (session : Option Nat) (post_id : Nat)
    (form : Option CreatePostForm) : HResult :=
  admin_only edit_post_inner db session (post_id, form)

/-- Body of `/delete/<int:post_id>` (main.py lines 253-258), before the
`admin_only` wrapping. `db.session.delete(None)` — reached when the id is
absent — raises UnmappedInstanceError, an uncaught exception surfaced as
HTTP 500. On a present id the post row is removed; nothing touches the
`comments` table (no cascade is configured on the model). -/
def delete_post_inner (db : DB) (session : Option Nat) (post_id : Nat) : HResult :=
  match db.posts.find? (fun p => p.id == post_id) with
  | none =>
      { db := db, session := session,
        response := .httpError 500 "UnmappedInstanceError", flashes := [] }
  | some _post =>
      { db := { db with posts := db.posts.filter (fun p => p.id != post_id) },
        session := session,
        response := .redirect .get_all_posts, flashes := [] }

/-- `/delete/<int:post_id>` with its `admin_only` gate. -/
def delete_post (db : DB) (session : Option Nat) (post_id : Nat) : HResult :=
  admin_only delete_post_inner db session post_id

/-- The result the `admin_only` gate returns to an authenticated
non-privileged principal: `abort(403, "This page is not found at all")`,
with the store untouched. -/
def forbiddenResult (db : DB) (session : Option Nat) : HResult :=
  { db := db, session := session,
    response := .httpError 403 "This page is not found at all", flashes := [] }

/-- The result the `admin_only` gate returns to an anonymous principal:
the AttributeError raised by `current_user.id`, surfaced as HTTP 500,
with the store untouched. -/
def anonCrashResult (db : DB) (session : Option Nat) : HResult :=
  { db := db, session := session,
    response := .httpError 500 "AttributeError: AnonymousUserMixin has no attribute id",
    flashes := [] }

/-- Whether a response is an HTTP 404 NotFound report. -/
def is_not_found_response : Response → Bool
  | .httpError code _ => code == 404
  | _ => false

/-- Concrete fixtures used by witnesses and counterexamples. -/
def alice : User :=
  { id := 1, email := "alice@example.com",
    password := generate_password_hash "pw1", name := "Alice" }

def bob : User :=
  { id := 2, email := "bob@example.com",
    password := generate_password_hash "pw2", name := "Bob" }

def post1 : BlogPost :=
  { id := 1, title := "Hello", subtitle := "sub", date := "April 05, 2024",
    body := "body", img_url := "http://img", author_id := some 1 }

def comment1 : Comment :=
  { id := 1, author_id := some 2, post_id := some 1, text := "nice post" }

def db0 : DB :=
  { users := [alice, bob], posts := [post1], comments := [comment1],
    next_user_id := 3, next_post_id := 2, next_comment_id := 2 }

theorem sanity_register :
    (register db0 none
      (some { name := "Carol", email := "carol@example.com", password := "pw3" })
      ).db.users.length = 3 := by decide

/-! ### Helper lemmas -/

theorem generate_password_hash_inj {p q : String}
    (h : generate_password_hash p = generate_password_hash q) : p = q := by
  have h1 : "pbkdf2:sha256:".data ++ p.data = "pbkdf2:sha256:".data ++ q.data := by
    simpa [generate_password_hash, String.data_append] using congrArg String.data h
  exact String.ext (List.append_cancel_left h1)

theorem admin_only_cases {α : Type} (func : DB → Option Nat → α → HResult)
    (db : DB) (session : Option Nat) (a : α) :
    (∀ u, current_user db session = some u → u.id = 1 →
        admin_only func db session a = func db session a)
  ∧ (∀ u, current_user db session = some u → u.id ≠ 1 →
        admin_only func db session a = forbiddenResult db session)
  ∧ (current_user db session = none →
        admin_only func db session a = anonCrashResult db session) := by
  refine ⟨?_, ?_, ?_⟩
  · intro u hu h1
    simp [admin_only, hu, h1]
  · intro u hu h1
    simp [admin_only, hu, h1, forbiddenResult]
  · intro h
    simp [admin_only, h, anonCrashResult]

/-! ### Claims -/

/-- C1 (amended): the admin gate guarding create-post, edit-post and
delete-post passes the request through only when the principal is
authenticated and its id equals the hard-coded privileged id 1; every
OTHER AUTHENTICATED principal receives Forbidden (403) with the store
untouched; an ANONYMOUS principal is also blocked before any mutation,
but by the AttributeError that `current_user.id` raises (HTTP 500), not
by Forbidden. -/
theorem c1_admin_gate (db : DB) (session : Option Nat)
    (pform : Option CreatePostForm) (today : String) (pid : Nat)
    (eform : Option CreatePostForm) :
    (∀ u, current_user db session = some u → u.id = 1 →
         make_post db session pform today = make_post_inner db session (pform, today)
       ∧ edit_post db session pid eform = edit_post_inner db session (pid, eform)
       ∧ delete_post db session pid = delete_post_inner db session pid)
  ∧ (∀ u, current_user db session = some u → u.id ≠ 1 →
         make_post db session pform today = forbiddenResult db session
       ∧ edit_post db session pid eform = forbiddenResult db session
       ∧ delete_post db session pid = forbiddenResult db session)
  ∧ (current_user db session = none →
         make_post db session pform today = anonCrashResult db session
       ∧ edit_post db session pid eform = anonCrashResult db session
       ∧ delete_post db session pid = anonCrashResult db session) := by
  unfold make_post edit_post delete_post
  refine ⟨?_, ?_, ?_⟩
  · intro u hu h1
    exact ⟨(admin_only_cases make_post_inner db session (pform, today)).1 u hu h1,
           (admin_only_cases edit_post_inner db session (pid, eform)).1 u hu h1,
           (admin_only_cases delete_post_inner db session pid).1 u hu h1⟩
  · intro u hu h1
    exact ⟨(admin_only_cases make_post_inner db session (pform, today)).2.1 u hu h1,
           (admin_only_cases edit_post_inner db session (pid, eform)).2.1 u hu h1,
           (admin_only_cases delete_post_inner db session pid).2.1 u hu h1⟩
  · intro h
    exact ⟨(admin_only_cases make_post_inner db session (pform, today)).2.2 h,
           (admin_only_cases edit_post_inner db session (pid, eform)).2.2 h,
           (admin_only_cases delete_post_inner db session pid).2.2 h⟩

/-- C1 counterexample: an anonymous caller of delete-post does NOT
receive Forbidden (403); the request dies with the AttributeError
raised by `current_user.id` (HTTP 500). No mutation happens. -/
theorem c1_gate_anonymous_counterexample :
    (delete_post db0 none 1).response
        = Response.httpError 500 "AttributeError: AnonymousUserMixin has no attribute id"
  ∧ (delete_post db0 none 1).response
        ≠ Response.httpError 403 "This page is not found at all"
  ∧ (delete_post db0 none 1).db = db0 := by
  decide

/-- Witness for C1: the authenticated non-privileged user bob (id 2) is
forbidden on create-post and delete-post, with the store untouched. -/
theorem c1_admin_gate_witness :
    current_user db0 (some 2) = some bob ∧ bob.id ≠ 1
  ∧ make_post db0 (some 2) none "May 01, 2025" = forbiddenResult db0 (some 2)
  ∧ delete_post db0 (some 2) 1 = forbiddenResult db0 (some 2) :=
  ⟨by decide, by decide,
   ((c1_admin_gate db0 (some 2) none "May 01, 2025" 1 none).2.1 bob (by decide)
     (by decide)).1,
   ((c1_admin_gate db0 (some 2) none "May 01, 2025" 1 none).2.1 bob (by decide)
     (by decide)).2.2⟩

/-- C2: registering with an email already present never creates a second
User row: the store is returned unchanged, the caller is redirected to
the login page, and the duplicate-email notice is flashed. -/
theorem c2_register_duplicate (db : DB) (session : Option Nat) (f : RegisterForm)
    (hdup : (db.users.find? (fun u => u.email == f.email)).isSome = true) :
    register db session (some f) =
      { db := db, session := session,
        response := Response.redirect Route.login,
        flashes := ["This email has been registered. Login with the email"] } := by
  simp [register, hdup]

/-- Witness for C2: re-registering alice's email leaves db0 unchanged and
redirects to login with the notice. -/
theorem c2_register_duplicate_witness :
    (db0.users.find? (fun u =>
        u.email == ({ name := "Alice Clone", email := "alice@example.com",
                      password := "other" } : RegisterForm).email)).isSome = true
  ∧ register db0 none (some { name := "Alice Clone", email := "alice@example.com",
                              password := "other" }) =
      { db := db0, session := none, response := Response.redirect Route.login,
        flashes := ["This email has been registered. Login with the email"] } :=
  ⟨by decide, c2_register_duplicate db0 none _ (by decide)⟩

/-- C3: login with a registered (email, password) pair succeeds, sets the
session principal to that user and redirects to the post listing; login
with an unregistered email flashes the unknown-email notice and
redirects back to the login page; login with a wrong password for a
registered email flashes the wrong-password notice and re-renders the
login form; in both failure cases the session is left unchanged. -/
theorem c3_login_spec (db : DB) (session : Option Nat) (f : LoginForm) :
    (∀ u, db.users.find? (fun x => x.email == f.email) = some u →
        u.password = generate_password_hash f.password →
        login db session (some f) =
          { db := db, session := some u.id,
            response := Response.redirect Route.get_all_posts, flashes := [] })
  ∧ (db.users.find? (fun x => x.email == f.email) = none →
        login db session (some f) =
          { db := db, session := session,
            response := Response.redirect Route.login,
            flashes := ["This email does not exist. Please try again"] })
  ∧ (∀ u p, db.users.find? (fun x => x.email == f.email) = some u →
        u.password = generate_password_hash p → f.password ≠ p →
        login db session (some f) =
          { db := db, session := session,
            response := Response.renderLogin (current_user db session).isSome,
            flashes := ["Password incorrect. Please try again"] }) := by
  refine ⟨?_, ?_, ?_⟩
  · intro u hu hpw
    simp [login, hu, check_password_hash, hpw]
  · intro h
    simp [login, h]
  · intro u p hu hpw hne
    have hfalse : check_password_hash u.password f.password = false := by
      unfold check_password_hash
      rw [hpw]
      simp only [beq_eq_false_iff_ne, ne_eq]
      intro hcontra
      exact hne (generate_password_hash_inj hcontra).symm
    simp [login, hu, hfalse]

/-- Witness for C3: bob logs in with his password and the session becomes
bob's id; an unknown email redirects back to login; bob's email with the
wrong password re-renders the form with the notice, session unchanged. -/
theorem c3_login_spec_witness :
    db0.users.find? (fun x => x.email == "bob@example.com") = some bob
  ∧ bob.password = generate_password_hash "pw2"
  ∧ login db0 none (some { email := "bob@example.com", password := "pw2" }) =
      { db := db0, session := some 2,
        response := Response.redirect Route.get_all_posts, flashes := [] }
  ∧ login db0 none (some { email := "nobody@example.com", password := "pw" }) =
      { db := db0, session := none, response := Response.redirect Route.login,
        flashes := ["This email does not exist. Please try again"] }
  ∧ login db0 none (some { email := "bob@example.com", password := "wrong" }) =
      { db := db0, session := none, response := Response.renderLogin false,
        flashes := ["Password incorrect. Please try again"] } := by
  refine ⟨by decide, by decide, ?_, ?_, ?_⟩
  · exact (c3_login_spec db0 none
      { email := "bob@example.com", password := "pw2" }).1 bob (by decide) (by decide)
  · exact (c3_login_spec db0 none
      { email := "nobody@example.com", password := "pw" }).2.1 (by decide)
  · have h := (c3_login_spec db0 none
      { email := "bob@example.com", password := "wrong" }).2.2 bob "pw2"
      (by decide) (by decide) (by decide)
    simpa [current_user] using h

theorem current_user_posts_irrel (db : DB) (posts2 : List BlogPost)
    (session : Option Nat) :
    current_user { db with posts := posts2 } session = current_user db session := by
  cases session <;> rfl

theorem find?_id_filter_ne (posts : List BlogPost) (pid : Nat) :
    (posts.filter (fun x => x.id != pid)).find? (fun x => x.id == pid) = none := by
  apply List.find?_eq_none.mpr
  intro x hx
  have h2 := (List.mem_filter.mp hx).2
  simp only [bne_iff_ne, ne_eq] at h2
  simp [h2]

/-- C4: submitting a comment on an existing post while anonymous never
creates a Comment row (the store is unchanged) and redirects to the
login page with a notice; submitting while authenticated appends exactly
one Comment row whose author reference is the session principal and
whose post reference is the viewed post, then redirects back to the same
post page. -/
theorem c4_comment_spec (db : DB) (session : Option Nat) (index : Nat)
    (text : String) (p : BlogPost)
    (hp : db.posts.find? (fun x => x.id == index) = some p) :
    (current_user db session = none →
        show_post db session index (some text) =
          { db := db, session := session, response := Response.redirect Route.login,
            flashes := ["You need to login or register to comment."] })
  ∧ (∀ u, current_user db session = some u →
        show_post db session index (some text) =
          { db := { db with
                    comments := db.comments ++
                      [{ id := db.next_comment_id, author_id := some u.id,
                         post_id := some p.id, text := text }],
                    next_comment_id := db.next_comment_id + 1 },
            session := session,
            response := Response.redirect (Route.show_post index), flashes := [] }) := by
  refine ⟨?_, ?_⟩
  · intro h
    simp [show_post, hp, h]
  · intro u hu
    simp [show_post, hp, hu]

/-- Witness for C4: an anonymous submission on post 1 of db0 leaves the
store unchanged and redirects to login; bob's submission appends exactly
one comment by bob on post 1. -/
theorem c4_comment_spec_witness :
    db0.posts.find? (fun x => x.id == 1) = some post1
  ∧ show_post db0 none 1 (some "hi") =
      { db := db0, session := none, response := Response.redirect Route.login,
        flashes := ["You need to login or register to comment."] }
  ∧ show_post db0 (some 2) 1 (some "hi") =
      { db := { db0 with
                comments := db0.comments ++
                  [{ id := 2, author_id := some 2, post_id := some 1, text := "hi" }],
                next_comment_id := 3 },
        session := some 2,
        response := Response.redirect (Route.show_post 1), flashes := [] } := by
  refine ⟨by decide, ?_, ?_⟩
  · exact (c4_comment_spec db0 none 1 "hi" post1 (by decide)).1 (by decide)
  · have h := (c4_comment_spec db0 (some 2) 1 "hi" post1 (by decide)).2 bob (by decide)
    simpa [db0, bob, post1] using h

/-- C5: creating a post stamps its publish-date with the formatted
current date passed at creation time, and an edit mutates only title,
subtitle, image URL, author and body: the edited row keeps its date (and
id), and every other row is untouched. -/
theorem c5_post_date_frame (db : DB) (session : Option Nat) (u : User)
    (f : CreatePostForm) (today : String) (pid : Nat) (p : BlogPost)
    (hu : current_user db session = some u) (hadmin : u.id = 1) :
    ((make_post db session (some f) today).db.posts =
        db.posts ++
          [{ id := db.next_post_id, title := f.title, subtitle := f.subtitle,
             date := today, body := f.body, img_url := f.img_url,
             author_id := some u.id }])
  ∧ (db.posts.find? (fun x => x.id == pid) = some p →
        (edit_post db session pid (some f)).db.posts =
          db.posts.map (fun x =>
            if x.id == pid then
              { p with
                title := f.title
                subtitle := f.subtitle
                img_url := f.img_url
                author_id := f.author
                body := f.body }
            else x))
  ∧ ({ p with
       title := f.title
       subtitle := f.subtitle
       img_url := f.img_url
       author_id := f.author
       body := f.body } : BlogPost).date = p.date := by
  refine ⟨?_, ?_, rfl⟩
  · simp [make_post, admin_only, hu, hadmin, make_post_inner]
  · intro hp
    simp [edit_post, admin_only, hu, hadmin, edit_post_inner, hp]

/-- Witness for C5: alice (the admin) creates a post dated by the
request-time date, then edits post 1 of db0: the date column of post 1
survives the edit unchanged. -/
theorem c5_post_date_frame_witness :
    current_user db0 (some 1) = some alice ∧ alice.id = 1
  ∧ (make_post db0 (some 1)
        (some { title := "T2", subtitle := "S2", body := "B2",
                img_url := "U2", author := some 1 }) "May 01, 2025").db.posts =
      db0.posts ++
        [{ id := 2, title := "T2", subtitle := "S2", date := "May 01, 2025",
           body := "B2", img_url := "U2", author_id := some 1 }]
  ∧ (edit_post db0 (some 1) 1
        (some { title := "T2", subtitle := "S2", body := "B2",
                img_url := "U2", author := some 1 })).db.posts =
      [{ id := 1, title := "T2", subtitle := "S2", date := "April 05, 2024",
         body := "B2", img_url := "U2", author_id := some 1 }] := by
  have h := c5_post_date_frame db0 (some 1) alice
    { title := "T2", subtitle := "S2", body := "B2", img_url := "U2", author := some 1 }
    "May 01, 2025" 1 post1 (by decide) (by decide)
  refine ⟨by decide, by decide, ?_, ?_⟩
  · simpa [db0, alice, post1] using h.1
  · have h2 := h.2.1 (by decide)
    simpa [db0, post1] using h2

/-- C6 (amended): with the privileged principal, delete-post on an ABSENT
id does not report NotFound: it dies with the UnmappedInstanceError
raised by deleting a missing instance (HTTP 500), the store unchanged;
delete-post on a PRESENT id removes exactly the rows with that id, so
the post no longer appears in the listing rendered by `get_all_posts`
and fetching the same id afterward yields nothing. -/
theorem c6_delete_post_spec (db : DB) (session : Option Nat) (u : User) (pid : Nat)
    (hu : current_user db session = some u) (hadmin : u.id = 1) :
    (db.posts.find? (fun x => x.id == pid) = none →
        delete_post db session pid =
          { db := db, session := session,
            response := Response.httpError 500 "UnmappedInstanceError",
            flashes := [] })
  ∧ (∀ p, db.posts.find? (fun x => x.id == pid) = some p →
        (delete_post db session pid).db.posts = db.posts.filter (fun x => x.id != pid)
      ∧ getPost (delete_post db session pid).db pid = none
      ∧ (get_all_posts (delete_post db session pid).db session).response =
          Response.renderIndex (db.posts.filter (fun x => x.id != pid)) true
      ∧ ∀ q ∈ (delete_post db session pid).db.posts, q.id ≠ pid) := by
  have hgate : delete_post db session pid = delete_post_inner db session pid := by
    simp [delete_post, admin_only, hu, hadmin]
  refine ⟨?_, ?_⟩
  · intro habs
    rw [hgate]
    simp [delete_post_inner, habs]
  · intro p hp
    have hdb : (delete_post db session pid).db =
        { db with posts := db.posts.filter (fun x => x.id != pid) } := by
      rw [hgate]
      simp [delete_post_inner, hp]
    refine ⟨by rw [hdb], ?_, ?_, ?_⟩
    · rw [hdb]
      exact find?_id_filter_ne db.posts pid
    · rw [hdb]
      have hcu : current_user { db with posts := db.posts.filter (fun x => x.id != pid) }
          session = some u := by
        rw [current_user_posts_irrel]
        exact hu
      simp [get_all_posts, hcu]
    · intro q hq
      rw [hdb] at hq
      have h2 := (List.mem_filter.mp hq).2
      simpa [bne_iff_ne] using h2

/-- C6 counterexample: with the admin logged in, deleting the absent post
id 99 in db0 does not produce a NotFound report: the response is the
HTTP 500 UnmappedInstanceError. -/
theorem c6_delete_absent_counterexample :
    (delete_post db0 (some 1) 99).response = Response.httpError 500 "UnmappedInstanceError"
  ∧ is_not_found_response (delete_post db0 (some 1) 99).response = false
  ∧ (delete_post db0 (some 1) 99).db = db0 := by
  decide

/-- Witness for C6: deleting the present post 1 of db0 as alice empties
the post table, and fetching id 1 afterward yields nothing. -/
theorem c6_delete_post_spec_witness :
    current_user db0 (some 1) = some alice ∧ alice.id = 1
  ∧ db0.posts.find? (fun x => x.id == 1) = some post1
  ∧ (delete_post db0 (some 1) 1).db.posts = []
  ∧ getPost (delete_post db0 (some 1) 1).db 1 = none := by
  have h := (c6_delete_post_spec db0 (some 1) alice 1 (by decide) (by decide)).2
    post1 (by decide)
  refine ⟨by decide, by decide, by decide, ?_, h.2.1⟩
  rw [h.1]
  decide

/-- C7: a successful registration persists the new User row but never
establishes a session: the session after `register` equals the session
before, so an anonymous caller stays anonymous (no auto-login). -/
theorem c7_register_no_autologin (db : DB) (session : Option Nat) (f : RegisterForm)
    (hfresh : db.users.find? (fun u => u.email == f.email) = none) :
    (register db session (some f)).session = session
  ∧ (register db session (some f)).db.users =
      db.users ++ [{ id := db.next_user_id, email := f.email,
                     password := generate_password_hash f.password, name := f.name }]
  ∧ (session = none →
        current_user (register db session (some f)).db
          (register db session (some f)).session = none) := by
  refine ⟨?_, ?_, ?_⟩
  · simp [register, hfresh]
  · simp [register, hfresh]
  · intro hanon
    subst hanon
    simp [register, hfresh, current_user]

/-- Witness for C7: carol registers against db0 while anonymous; her row
is persisted and the session principal stays anonymous. -/
theorem c7_register_no_autologin_witness :
    db0.users.find? (fun u => u.email == ({ name := "Carol", email := "carol@example.com", password := "pw3" } : RegisterForm).email) = none
  ∧ (register db0 none (some { name := "Carol", email := "carol@example.com", password := "pw3" })).session = none
  ∧ (register db0 none (some { name := "Carol", email := "carol@example.com", password := "pw3" })).db.users =
      db0.users ++ [{ id := 3, email := "carol@example.com",
                      password := generate_password_hash "pw3", name := "Carol" }] := by
  have h := c7_register_no_autologin db0 none
    { name := "Carol", email := "carol@example.com", password := "pw3" } (by decide)
  exact ⟨by decide, h.1, by simpa [db0] using h.2.1⟩

/-- C8: deleting a present post removes only the post row: the comments
and users tables are untouched, every Comment row referencing the
deleted post remains in the store unchanged (no cascade delete), and its
post reference now dangles (the deleted id no longer resolves). -/
theorem c8_delete_comments_frame (db : DB) (session : Option Nat) (u : User)
    (pid : Nat) (p : BlogPost)
    (hu : current_user db session = some u) (hadmin : u.id = 1)
    (hp : db.posts.find? (fun x => x.id == pid) = some p) :
    (delete_post db session pid).db.comments = db.comments
  ∧ (delete_post db session pid).db.users = db.users
  ∧ ∀ c ∈ db.comments, c.post_id = some pid →
      c ∈ (delete_post db session pid).db.comments
    ∧ getPost (delete_post db session pid).db pid = none := by
  have hdb : (delete_post db session pid).db =
      { db with posts := db.posts.filter (fun x => x.id != pid) } := by
    simp [delete_post, admin_only, hu, hadmin, delete_post_inner, hp]
  refine ⟨by rw [hdb], by rw [hdb], ?_⟩
  intro c hc _href
  constructor
  · rw [hdb]
    exact hc
  · rw [hdb]
    exact find?_id_filter_ne db.posts pid

/-- Witness for C8: deleting post 1 of db0 as alice keeps comment1 (which
references post 1) in the comments table while post 1 itself is gone. -/
theorem c8_delete_comments_frame_witness :
    current_user db0 (some 1) = some alice ∧ alice.id = 1
  ∧ db0.posts.find? (fun x => x.id == 1) = some post1
  ∧ comment1 ∈ db0.comments ∧ comment1.post_id = some 1
  ∧ comment1 ∈ (delete_post db0 (some 1) 1).db.comments
  ∧ getPost (delete_post db0 (some 1) 1).db 1 = none := by
  have h := (c8_delete_comments_frame db0 (some 1) alice 1 post1
    (by decide) (by decide) (by decide)).2.2 comment1 (by decide) (by decide)
  exact ⟨by decide, by decide, by decide, by decide, by decide, h.1, h.2⟩

/-- C9: a GET of the post page never redirects: for every session,
authenticated or anonymous, `show_post` renders the post page, and it
renders it with `logged_in = true`; the redirect-to-login value computed
for the anonymous case is discarded, so the response is never that
redirect. -/
theorem c9_show_post_get (db : DB) (session : Option Nat) (index : Nat) :
    show_post db session index none =
      { db := db, session := session,
        response := Response.renderPost (db.posts.find? (fun p => p.id == index)) true,
        flashes := [] }
  ∧ (show_post db session index none).response ≠ Response.redirect Route.login := by
  refine ⟨rfl, ?_⟩
  simp [show_post]

/-- C10: for an absent post id, `show_post` does not report NotFound: the
page is rendered with an empty post; and an authenticated principal
submitting a valid comment form to that absent id creates and commits a
Comment row whose parent-post reference is null. -/
theorem c10_show_post_absent (db : DB) (session : Option Nat) (index : Nat)
    (text : String) (u : User)
    (habs : db.posts.find? (fun p => p.id == index) = none) :
    (show_post db session index none).response = Response.renderPost none true
  ∧ is_not_found_response (show_post db session index none).response = false
  ∧ (current_user db session = some u →
        show_post db session index (some text) =
          { db := { db with
                    comments := db.comments ++
                      [{ id := db.next_comment_id, author_id := some u.id,
                         post_id := none, text := text }],
                    next_comment_id := db.next_comment_id + 1 },
            session := session,
            response := Response.redirect (Route.show_post index), flashes := [] }) := by
  refine ⟨?_, ?_, ?_⟩
  · simp [show_post, habs]
  · simp [show_post, habs, is_not_found_response]
  · intro hu
    simp [show_post, habs, hu]

/-- Witness for C10: post id 5 is absent from db0; the page renders with
an empty post, and bob's comment submission on id 5 commits a comment
with a null post reference. -/
theorem c10_show_post_absent_witness :
    db0.posts.find? (fun p => p.id == 5) = none
  ∧ (show_post db0 (some 2) 5 none).response = Response.renderPost none true
  ∧ show_post db0 (some 2) 5 (some "lost") =
      { db := { db0 with
                comments := db0.comments ++
                  [{ id := 2, author_id := some 2, post_id := none, text := "lost" }],
                next_comment_id := 3 },
        session := some 2,
        response := Response.redirect (Route.show_post 5), flashes := [] } := by
  have h := c10_show_post_absent db0 (some 2) 5 "lost" bob (by decide)
  refine ⟨by decide, h.1, ?_⟩
  have h3 := h.2.2 (by decide)
  simpa [db0, bob] using h3
